import Mathlib

/-!
Verification of the KeySound sound-pack engine.

The development shallowly embeds the parts of the repository that the
checked properties talk about:

* the Playwright Tauri-mock backend state machine
  (`e2e/tauri-mock`, given here as `MockState` and the `toggle_sound`,
  `delete_custom_pack`, … transition functions);
* the WAV encoder `encodeWav` of `scripts/generate-sounds.mjs`
  (byte-level model over rational samples);
* the sound-pack data model, resolver, volume compositing and the
  pack-lifecycle operations.  The Rust backend implementing these is not
  part of the source tree handed to us (only its e2e tests and the mock
  are), so those definitions are modelled from the specification and are
  marked `Modelled from the spec:` in their doc comments.
-/

namespace KeySound

/-! ## Sound-pack manifest data model (spec section 3, section 6) -/

/-- A key override: `key_overrides.<KeyId> = { keydown?, volume? }`. -/
structure KeyOverride where
  assetRef : Option String
  volume : Option ℚ
  deriving DecidableEq

/-- A category override: `category_overrides.<CategoryName> = { keys, keydown?, volume? }`. -/
structure CategoryOverride where
  keys : List String
  assetRef : Option String
  volume : Option ℚ
  deriving DecidableEq

/-- Pack defaults: `defaults = { keydown, volume }`; the asset is never absent. -/
structure Defaults where
  assetRef : String
  volume : ℚ
  deriving DecidableEq

/-- In-memory manifest of one pack (the fields the resolver consumes). -/
structure SoundPack where
  defaults : Defaults
  keyOverrides : List (String × KeyOverride)
  categoryOverrides : List (String × CategoryOverride)
  deriving DecidableEq

/-! ## SoundResolver (spec section 4.2) -/

/-- First category (in manifest declaration order) whose key set contains `keyId`. -/
def findCategory (pack : SoundPack) (keyId : String) : Option CategoryOverride :=
  (pack.categoryOverrides.find? (fun c => c.2.keys.contains keyId)).map Prod.snd

/-- Modelled from the spec: `SoundResolver.resolve(pack, keyId)` (the Rust resolver is
not in the source tree).  Tier 1: key override, with per-field fallback to defaults.
Tier 2: first matching category override, same per-field fallback.  Tier 3: defaults. -/
def resolve (pack : SoundPack) (keyId : String) : String × ℚ :=
  match pack.keyOverrides.lookup keyId with
  | some ov => (ov.assetRef.getD pack.defaults.assetRef, ov.volume.getD pack.defaults.volume)
  | none =>
    match findCategory pack keyId with
    | some c => (c.assetRef.getD pack.defaults.assetRef, c.volume.getD pack.defaults.volume)
    | none => (pack.defaults.assetRef, pack.defaults.volume)

/-! ## Volume compositing (spec section 4.2) -/

/-- Clamp `x` into the interval `[lo, hi]`. -/
def clamp (lo hi x : ℚ) : ℚ := max lo (min hi x)

/-- Modelled from the spec: `finalVolume = clamp(masterVolume * resolvedVolume, 0, 1)`. -/
def composeVolume (master resolved : ℚ) : ℚ := max 0 (min 1 (master * resolved))

/-- Playback outcome of the engine for a composed volume. -/
inductive Playback where
  | silent
  | audible (volume : ℚ)
  deriving DecidableEq

/-- Modelled from the spec: a zero final volume plays silently (the logarithmic gain
conversion floors at `v == 0`); any positive final volume is audible at that volume. -/
def playbackFor (master resolved : ℚ) : Playback :=
  if composeVolume master resolved = 0 then .silent else .audible (composeVolume master resolved)

/-! ## The Tauri-mock backend state machine (`e2e/tauri-mock`) -/

/-- One pack record as listed by the backend (`MockState.packs` entries). -/
structure Pack where
  id : String
  name : String
  author : String
  description : String
  source : Option String
  deriving DecidableEq

/-- One custom-pack slot row (`{ slot, label, file_name }`). -/
structure SlotEntry where
  slot : String
  label : String
  file_name : Option String
  deriving DecidableEq

/-- The mock backend state (`MockState` in `e2e/tauri-mock`). -/
structure MockState where
  enabled : Bool
  volume : ℚ
  activePackId : String
  packs : List Pack
  customSlots : List (String × List SlotEntry)
  nextCustomId : String
  deriving DecidableEq

/-- The mock constant `DEFAULT_PACKS`. -/
def DEFAULT_PACKS : List Pack :=
  [ { id := "default", name := "HHKB", author := "KeySound", description := "Default",
      source := none },
    { id := "my-custom", name := "My Custom", author := "You", description := "",
      source := some "user" },
    { id := "cherry-mx", name := "Cherry MX Blue", author := "KeySound", description := "Clicky",
      source := none } ]

/-- The mock constant `ALL_SLOTS`, with the default slot holding `click.wav` as in
`defaultState`. -/
def DEFAULT_SLOTS : List SlotEntry :=
  [ { slot := "default", label := "Default Key", file_name := some "click.wav" },
    { slot := "space", label := "Space", file_name := none },
    { slot := "enter", label := "Enter", file_name := none },
    { slot := "modifier", label := "Modifiers", file_name := none },
    { slot := "backspace", label := "Backspace / Delete", file_name := none } ]

/-- The mock function `defaultState()`. -/
def defaultState : MockState :=
  { enabled := true
    volume := 4/5
    activePackId := "default"
    packs := DEFAULT_PACKS
    customSlots := [("my-custom", DEFAULT_SLOTS)]
    nextCustomId := "new-pack-1" }

/-- The mock `toggle_sound` command: flips `enabled` and returns the new value. -/
def toggle_sound (st : MockState) : MockState × Bool :=
  ({ st with enabled := !st.enabled }, !st.enabled)

/-- The mock `get_active_pack_id` command. -/
def get_active_pack_id (st : MockState) : String := st.activePackId

/-- The mock `delete_custom_pack` command: drops the pack from `packs` and deletes its
`customSlots` entry (the mock itself never touches `activePackId`). -/
def delete_custom_pack (st : MockState) (packId : String) : MockState :=
  { st with
    packs := st.packs.filter (fun p => p.id ≠ packId)
    customSlots := st.customSlots.filter (fun e => e.1 ≠ packId) }

/-! ## Pack lifecycle: delete (spec section 4.4) -/

/-- Error taxonomy of the lifecycle manager (spec section 7). -/
inductive LifecycleError where
  | validationError
  | notFoundError
  | policyError
  deriving DecidableEq

/-- Modelled from the spec: `deletePack(packId)` of the PackLifecycleManager (the Rust
backend is not in the source tree).  Rejects bundled packs with a PolicyError, unknown
ids with NotFound; otherwise removes the pack (the `delete_custom_pack` state change)
and, if `packId` was active, resets the active pointer to `"default"`. -/
def deletePack (st : MockState) (packId : String) : Except LifecycleError MockState :=
  match st.packs.find? (fun p => p.id = packId) with
  | none => .error .notFoundError
  | some p =>
    if p.source = some "user" then
      let st' := delete_custom_pack st packId
      .ok { st' with
            activePackId := if st.activePackId = packId then "default" else st.activePackId }
    else
      .error .policyError

/-! ## Pack lifecycle: slot removal (spec section 4.4, section 4.5) -/

/-- The four fixed non-default category slot names (spec section 3). -/
def FIXED_CATEGORIES : List String := ["space", "enter", "modifier", "backspace"]

/-- Relative asset path of the generated silence placeholder. -/
def silencePlaceholder : String := "sounds/silence.wav"

/-- Modelled from the spec: `removeSlot(packId, slotKey)` of the PackLifecycleManager
(the Rust backend is not in the source tree), acting on the pack's manifest.  For the
default slot it replaces the asset with the silence placeholder (never fully absent);
for a category slot it removes that category override entirely; for a per-key slot it
removes that key override entirely, so resolution falls through the hierarchy. -/
def removeSlot (pack : SoundPack) (slotKey : String) : SoundPack :=
  if slotKey = "default" then
    { pack with defaults := { pack.defaults with assetRef := silencePlaceholder } }
  else if FIXED_CATEGORIES.contains slotKey then
    { pack with categoryOverrides := pack.categoryOverrides.filter (fun c => c.1 ≠ slotKey) }
  else
    { pack with keyOverrides := pack.keyOverrides.filter (fun k => k.1 ≠ slotKey) }

/-! ## Pack lifecycle: create (spec section 4.4) -/

/-- A name is rejected by `create` when it is empty or whitespace-only. -/
def isBlank (s : String) : Bool := s.data.all Char.isWhitespace

/-- Surrounding whitespace stripped from a character list. -/
def trimChars (s : List Char) : List Char :=
  ((s.dropWhile Char.isWhitespace).reverse.dropWhile Char.isWhitespace).reverse

/-- Modelled from the spec: slugify a pack name — lowercase, dashes. -/
def slugify (name : String) : String :=
  String.mk ((trimChars name.data).map (fun c => if c = ' ' then '-' else c.toLower))

/-- Candidate id number `k` for a slug: the slug itself, then `slug-2`, `slug-3`, …. -/
def suffixCandidate (slug : String) (k : ℕ) : String :=
  if k = 0 then slug else slug ++ "-" ++ toString (k + 1)

/-- Walk the suffix candidates starting at number `k` until one is not taken;
`fuel` bounds the walk (one more candidate than there are taken ids suffices). -/
def freeIdFrom (ids : List String) (slug : String) : ℕ → ℕ → Option String
  | 0, _ => none
  | fuel + 1, k =>
    if suffixCandidate slug k ∈ ids then freeIdFrom ids slug fuel (k + 1)
    else some (suffixCandidate slug k)

/-- First suffix candidate of `slug` that is not among `ids`. -/
def freeId (ids : List String) (slug : String) : Option String :=
  freeIdFrom ids slug (ids.length + 1) 0

/-- Modelled from the spec: `create(name)` of the PackLifecycleManager (the Rust backend
is not in the source tree).  Rejects empty/whitespace-only names with a ValidationError
and no mutation; otherwise generates the id by slugifying the name and appending a
numeric suffix on collision, and adds the new user pack record. -/
def createPack (reg : List Pack) (name : String) : List Pack × Except LifecycleError Pack :=
  if isBlank name then (reg, .error .validationError)
  else
    match freeId (reg.map Pack.id) (slugify name) with
    | none => (reg, .error .validationError)
    | some newId =>
      let p : Pack :=
        { id := newId, name := name, author := "You", description := "", source := some "user" }
      (reg ++ [p], .ok p)

/-! ## PackRegistry ordering (spec section 4.1) -/

/-- Packs whose id is the reserved `"default"`. -/
def defaultPart (l : List Pack) : List Pack := l.filter (fun p => p.id == "default")

/-- Packs other than the default pack. -/
def restPart (l : List Pack) : List Pack := l.filter (fun p => !(p.id == "default"))

/-- Non-default user packs. -/
def userPart (l : List Pack) : List Pack := (restPart l).filter (fun p => p.source == some "user")

/-- Non-default bundled packs. -/
def bundledPart (l : List Pack) : List Pack :=
  (restPart l).filter (fun p => !(p.source == some "user"))

/-- Name order on packs (alphabetical). -/
def nameLe (a b : Pack) : Prop := a.name ≤ b.name

instance : DecidableRel nameLe := fun a b => inferInstanceAs (Decidable (a.name ≤ b.name))

instance : IsTotal Pack nameLe := ⟨fun a b => le_total a.name b.name⟩

instance : IsTrans Pack nameLe := ⟨fun _ _ _ hab hbc => le_trans hab hbc⟩

/-- Modelled from the spec: the order in which `PackRegistry.load()` returns packs (the
Rust backend is not in the source tree): the default pack first, then user packs
alphabetical by name, then the remaining bundled packs alphabetical by name. -/
def orderPacks (l : List Pack) : List Pack :=
  defaultPart l ++ List.insertionSort nameLe (userPart l)
    ++ List.insertionSort nameLe (bundledPart l)

/-- Group index a pack sorts into: default pack 0, user packs 1, bundled packs 2. -/
def packGroup (p : Pack) : ℕ :=
  if p.id = "default" then 0 else if p.source = some "user" then 1 else 2

/-- The registry order relation: earlier group first, names alphabetical inside the
user and bundled groups. -/
def packOrdered (a b : Pack) : Prop :=
  packGroup a < packGroup b ∨ (packGroup a = packGroup b ∧ (packGroup a = 0 ∨ nameLe a b))

/-! ## Pack lifecycle: slot import (spec section 4.4) -/

/-- Audio file extensions `importSlot` accepts. -/
def ALLOWED_EXTS : List String := ["mp3", "wav", "ogg"]

/-- Size cap for imported sound files: 5 MB. -/
def MAX_SOUND_BYTES : ℕ := 5 * 1024 * 1024

/-- A source file offered to `importSlot`: its path and its size in bytes. -/
structure SourceFile where
  path : String
  size : ℕ
  deriving DecidableEq

/-- Characters after the last occurrence of `sep` (the whole list when `sep` is
absent), i.e. the last piece of a separator split. -/
def lastPiece (sep : Char) (s : List Char) : List Char :=
  ((s.reverse.takeWhile (fun c => c ≠ sep))).reverse

/-- Extension of a path: everything after the last dot. -/
def fileExt (path : String) : String := String.mk (lastPiece '.' path.data)

/-- Final path component of a path (backslashes normalised to slashes first), the way
the mock derives the display file name. -/
def baseName (path : String) : String :=
  String.mk (lastPiece '/' (path.data.map (fun c => if c = '\\' then '/' else c)))

/-- On-disk state of one user pack: its manifest, the `original_names` display map and
the file names in its sound directory. -/
structure PackStore where
  manifest : SoundPack
  originalNames : List (String × String)
  soundDir : List String
  deriving DecidableEq

/-- Key sets the lifecycle manager assigns to a fixed category it creates. -/
def categoryKeysFor : String → List String
  | "space" => ["Space"]
  | "enter" => ["Enter"]
  | "modifier" => ["ShiftLeft", "ShiftRight", "ControlLeft", "ControlRight",
      "AltLeft", "AltRight", "MetaLeft", "MetaRight"]
  | "backspace" => ["Backspace", "Delete"]
  | _ => []

/-- Deterministic sound-file stem for a slot: `keydown` for the default slot,
`keydown-<slot>` otherwise. -/
def slotStem (slotKey : String) : String :=
  if slotKey = "default" then "keydown" else "keydown-" ++ slotKey

/-- Set (replace or insert) the asset of a key override. -/
def setKeyAsset (l : List (String × KeyOverride)) (key ref : String) :
    List (String × KeyOverride) :=
  match l.lookup key with
  | some ov => (key, { ov with assetRef := some ref }) :: l.filter (fun k => k.1 ≠ key)
  | none => (key, { assetRef := some ref, volume := none }) :: l

/-- Set (replace or insert) the asset of a category override, keeping existing keys. -/
def setCategoryAsset (l : List (String × CategoryOverride)) (cat ref : String) :
    List (String × CategoryOverride) :=
  match l.lookup cat with
  | some c => (cat, { c with assetRef := some ref }) :: l.filter (fun k => k.1 ≠ cat)
  | none => (cat, { keys := categoryKeysFor cat, assetRef := some ref, volume := none }) :: l

/-- Update the manifest section a slot addresses (defaults / category / key override). -/
def updateManifestSlot (m : SoundPack) (slotKey ref : String) : SoundPack :=
  if slotKey = "default" then { m with defaults := { m.defaults with assetRef := ref } }
  else if FIXED_CATEGORIES.contains slotKey then
    { m with categoryOverrides := setCategoryAsset m.categoryOverrides slotKey ref }
  else { m with keyOverrides := setKeyAsset m.keyOverrides slotKey ref }

/-- Modelled from the spec: `importSlot(packId, slotKey, sourceFilePath)` of the
PackLifecycleManager (the Rust backend is not in the source tree).  Validates the
extension against mp3/wav/ogg and the size against 5 MB, rejecting otherwise with no
change to the store; on success copies the file under its deterministic name, removes a
previous file of the slot with a different extension, and updates manifest plus
`original_names`. -/
def importSlot (st : PackStore) (slotKey : String) (file : SourceFile) :
    PackStore × Option LifecycleError :=
  if ¬ ALLOWED_EXTS.contains (fileExt file.path) ∨ MAX_SOUND_BYTES < file.size then
    (st, some .validationError)
  else
    let destName := slotStem slotKey ++ "." ++ fileExt file.path
    ({ manifest := updateManifestSlot st.manifest slotKey ("sounds/" ++ destName)
       originalNames :=
         (slotKey, baseName file.path) :: st.originalNames.filter (fun e => e.1 ≠ slotKey)
       soundDir := destName :: st.soundDir.filter
         (fun f => ¬ ALLOWED_EXTS.any (fun e => f == slotStem slotKey ++ "." ++ e)) },
     none)

/-! ## WAV encoding (`scripts/generate-sounds.mjs`, `encodeWav`) -/

/-- Clamp a sample to `[-1, 1]`: `Math.max(-1, Math.min(1, s))`. -/
def clampSample (s : ℚ) : ℚ := max (-1) (min 1 s)

/-- JavaScript `Math.round`: half-up rounding, `⌊q + 1/2⌋`. -/
def jsRound (q : ℚ) : ℤ := ⌊q + 1/2⌋

/-- The 16-bit value written for one sample: clamp, scale asymmetrically
(`s * 32768` when negative, `s * 32767` otherwise), round. -/
def sampleToInt16 (s : ℚ) : ℤ :=
  if clampSample s < 0 then jsRound (clampSample s * 32768) else jsRound (clampSample s * 32767)

/-- Little-endian bytes of a 16-bit unsigned value. -/
def u16bytes (v : ℕ) : List ℕ := [v % 256, v / 256 % 256]

/-- Little-endian bytes of a 32-bit unsigned value. -/
def u32bytes (v : ℕ) : List ℕ := [v % 256, v / 256 % 256, v / 65536 % 256, v / 16777216 % 256]

/-- Node `Buffer.writeUInt16LE`: two bytes, throws (`none` here) when out of range. -/
def writeUInt16LE (v : ℕ) : Option (List ℕ) := if v < 2 ^ 16 then some (u16bytes v) else none

/-- Node `Buffer.writeUInt32LE`: four bytes, throws (`none` here) when out of range. -/
def writeUInt32LE (v : ℕ) : Option (List ℕ) := if v < 2 ^ 32 then some (u32bytes v) else none

/-- Node `Buffer.writeInt16LE`: two bytes two's complement, throws (`none` here) outside
`[-32768, 32767]`. -/
def writeInt16LE (v : ℤ) : Option (List ℕ) :=
  if -32768 ≤ v ∧ v ≤ 32767 then some (u16bytes (v % 65536).toNat) else none

/-- ASCII bytes `buffer.write` stores for a literal tag string. -/
def asciiBytes (s : String) : List ℕ := s.data.map Char.toNat

/-- The WAV encoder of `scripts/generate-sounds.mjs`: the 44-byte RIFF/fmt/data header
followed by the 16-bit little-endian samples.  Concatenation order mirrors the source's
write offsets (RIFF size at 4, `data` chunk size at 40, samples from 44). -/
def encodeWav (samples : List ℚ) (sampleRate : ℕ) : Option (List ℕ) := do
  let dataSize := 2 * samples.length
  let riffSize ← writeUInt32LE (36 + dataSize)
  let fmtSize ← writeUInt32LE 16
  let fmtTag ← writeUInt16LE 1
  let channels ← writeUInt16LE 1
  let rate ← writeUInt32LE sampleRate
  let byteRate ← writeUInt32LE (sampleRate * 2)
  let blockAlign ← writeUInt16LE 2
  let bits ← writeUInt16LE 16
  let sizeField ← writeUInt32LE dataSize
  let data ← samples.mapM (fun s => writeInt16LE (sampleToInt16 s))
  return asciiBytes "RIFF" ++ riffSize ++ asciiBytes "WAVE" ++ asciiBytes "fmt " ++
    fmtSize ++ fmtTag ++ channels ++ rate ++ byteRate ++ blockAlign ++ bits ++
    asciiBytes "data" ++ sizeField ++ data.flatten

/-- Value of a little-endian byte list. -/
def bytesToNatLE (l : List ℕ) : ℕ := l.foldr (fun b acc => b + 256 * acc) 0

/-- The 32-bit little-endian field at byte offset `off`. -/
def readU32 (l : List ℕ) (off : ℕ) : ℕ := bytesToNatLE ((l.drop off).take 4)

/-- Spec's example pack: `key_overrides.Space = A`, and a category `space` covering
`Space` with asset `B`. -/
def spacePack : SoundPack :=
  { defaults := { assetRef := "sounds/keydown.wav", volume := 4/5 }
    keyOverrides := [("Space", { assetRef := some "A", volume := none })]
    categoryOverrides :=
      [("space", { keys := ["Space"], assetRef := some "B", volume := some (1/2) })] }

end KeySound

namespace KeySound

/-! ## Theorems -/

/-- C1: if `keyOverrides` contains an entry for `keyId` then `resolve` uses that entry's
asset and volume with per-field fallback to the defaults — regardless of any category
override whose key set also contains `keyId` (the category tier is never consulted). -/
theorem key_override_beats_category (pack : SoundPack) (keyId : String) (ov : KeyOverride)
    (h : pack.keyOverrides.lookup keyId = some ov) :
    resolve pack keyId =
      (ov.assetRef.getD pack.defaults.assetRef, ov.volume.getD pack.defaults.volume) := by
  simp [resolve, h]

/-- Witness for C1: on `spacePack` the key override wins and `Space` resolves to asset
`A` at the default volume, not to the category's `B`. -/
theorem key_override_beats_category_witness :
    spacePack.keyOverrides.lookup "Space" = some { assetRef := some "A", volume := none } ∧
    resolve spacePack "Space" = ("A", 4/5) :=
  ⟨by decide,
   key_override_beats_category spacePack "Space" { assetRef := some "A", volume := none }
     (by decide)⟩

/-- C2: the composed volume is `clamp(master * resolved, 0, 1)`; master `0.5` with
resolved `0.8` gives `0.4`; master `0` plays silent whatever the resolved volume is. -/
theorem volume_compositing :
    (∀ master resolved : ℚ, composeVolume master resolved = clamp 0 1 (master * resolved)) ∧
    composeVolume (1/2) (4/5) = 2/5 ∧
    (∀ resolved : ℚ, playbackFor 0 resolved = .silent) := by
  refine ⟨fun master resolved => rfl, by norm_num [composeVolume], fun resolved => ?_⟩
  simp [playbackFor, composeVolume]

/-- C9: the mock `toggle_sound` is an involution on `enabled`: one invocation flips the
flag and returns the new value, a second invocation restores the whole state exactly,
and each invocation changes no field other than `enabled`. -/
theorem toggle_sound_involution (st : MockState) :
    (toggle_sound st).2 = !st.enabled ∧
    (toggle_sound st).1.enabled = !st.enabled ∧
    (toggle_sound (toggle_sound st).1).1 = st ∧
    ((toggle_sound (toggle_sound st).1).2 = st.enabled) ∧
    (toggle_sound st).1.volume = st.volume ∧
    (toggle_sound st).1.activePackId = st.activePackId ∧
    (toggle_sound st).1.packs = st.packs ∧
    (toggle_sound st).1.customSlots = st.customSlots ∧
    (toggle_sound st).1.nextCustomId = st.nextCustomId := by
  cases st with
  | mk enabled volume activePackId packs customSlots nextCustomId =>
    simp [toggle_sound]

/-- C3: deleting the currently active user pack removes it from the pack list and resets
the active pointer to `"default"`, which `get_active_pack_id` then reports. -/
theorem delete_active_pack_resets_to_default (st : MockState) (packId : String) (p : Pack)
    (hfind : st.packs.find? (fun q => q.id = packId) = some p)
    (huser : p.source = some "user")
    (hactive : st.activePackId = packId) :
    ∃ st', deletePack st packId = .ok st' ∧
      get_active_pack_id st' = "default" ∧
      ∀ q ∈ st'.packs, q.id ≠ packId := by
  have hok : deletePack st packId =
      .ok { delete_custom_pack st packId with activePackId := "default" } := by
    simp [deletePack, hfind, huser, hactive]
  refine ⟨_, hok, rfl, ?_⟩
  intro q hq
  simp only [delete_custom_pack, List.mem_filter, decide_eq_true_eq] at hq
  exact hq.2

/-- Witness for C3: in the mock default state with `my-custom` active, deleting
`my-custom` drops it from the list and makes `default` the reported active pack. -/
theorem delete_active_pack_resets_to_default_witness :
    ∃ st', deletePack { defaultState with activePackId := "my-custom" } "my-custom" = .ok st' ∧
      get_active_pack_id st' = "default" ∧
      ∀ q ∈ st'.packs, q.id ≠ "my-custom" :=
  delete_active_pack_resets_to_default _ "my-custom"
    { id := "my-custom", name := "My Custom", author := "You", description := "",
      source := some "user" }
    (by decide) (by decide) (by decide)

/-- Helper: looking up a key in an association list from which every pair with that key
has been filtered out yields nothing. -/
theorem lookup_filter_ne {β : Type} (a : String) (l : List (String × β)) :
    (l.filter (fun k => k.1 ≠ a)).lookup a = none := by
  simp
  exact fun x b _ h he => h he.symm

/-- C4: removing the default slot never leaves the default asset absent — afterwards the
defaults hold the silence placeholder (a present value, distinguishable from an absent
override) and unmatched keys resolve to it; by contrast, removing a per-key or category
slot deletes that override entirely (`lookup` finds nothing) and leaves defaults alone. -/
theorem remove_default_slot_keeps_silence (pack : SoundPack) :
    (removeSlot pack "default").defaults.assetRef = silencePlaceholder ∧
    (removeSlot pack "default").keyOverrides = pack.keyOverrides ∧
    (removeSlot pack "default").categoryOverrides = pack.categoryOverrides ∧
    (∀ keyId, pack.keyOverrides.lookup keyId = none → findCategory pack keyId = none →
      resolve (removeSlot pack "default") keyId = (silencePlaceholder, pack.defaults.volume)) ∧
    (∀ slotKey, slotKey ≠ "default" → ¬ FIXED_CATEGORIES.contains slotKey →
      (removeSlot pack slotKey).keyOverrides.lookup slotKey = none ∧
      (removeSlot pack slotKey).defaults = pack.defaults) ∧
    (∀ slotKey, slotKey ≠ "default" → FIXED_CATEGORIES.contains slotKey →
      (removeSlot pack slotKey).categoryOverrides.lookup slotKey = none ∧
      (removeSlot pack slotKey).defaults = pack.defaults) := by
  refine ⟨by simp [removeSlot], by simp [removeSlot], by simp [removeSlot],
    fun keyId hk hc => ?_, fun slotKey hne hcat => ?_, fun slotKey hne hcat => ?_⟩
  · have e : removeSlot pack "default" =
        { pack with defaults := { pack.defaults with assetRef := silencePlaceholder } } := by
      simp [removeSlot]
    simp only [findCategory] at hc
    simp only [e, resolve, hk, findCategory, hc]
  · simp only [removeSlot]
    rw [if_neg hne, if_neg hcat]
    exact ⟨lookup_filter_ne _ _, rfl⟩
  · simp only [removeSlot]
    rw [if_neg hne, if_pos hcat]
    exact ⟨lookup_filter_ne _ _, rfl⟩

/-- Witness for C4: on the spec's example pack, removing the default slot leaves the
silence placeholder in place (an unmatched key resolves to it), while removing the
per-key `Space` slot erases that override entirely. -/
theorem remove_default_slot_keeps_silence_witness :
    (removeSlot spacePack "default").defaults.assetRef = silencePlaceholder ∧
    resolve (removeSlot spacePack "default") "KeyA" = (silencePlaceholder, 4/5) ∧
    (removeSlot spacePack "Space").keyOverrides.lookup "Space" = none ∧
    (removeSlot spacePack "Space").defaults = spacePack.defaults := by
  obtain ⟨h1, -, -, h4, h5, -⟩ := remove_default_slot_keeps_silence spacePack
  obtain ⟨h5a, h5b⟩ := h5 "Space" (by decide) (by decide)
  exact ⟨h1, by simpa [spacePack] using h4 "KeyA" (by decide) (by decide), h5a, h5b⟩

/-- C7: a source file whose extension is not mp3/wav/ogg, or whose size exceeds 5 MB,
is rejected by `importSlot` with a ValidationError, and the pack store — manifest,
`original_names` and sound directory — is returned unchanged (no partial file). -/
theorem import_slot_rejects_invalid (st : PackStore) (slotKey : String) (file : SourceFile)
    (h : ¬ ALLOWED_EXTS.contains (fileExt file.path) ∨ MAX_SOUND_BYTES < file.size) :
    importSlot st slotKey file = (st, some .validationError) := by
  unfold importSlot
  rw [if_pos h]

/-- Witness for C7: a `.flac` file and an oversized 6 MB `.wav` file are both rejected
with no change to a concrete pack store. -/
theorem import_slot_rejects_invalid_witness :
    importSlot ⟨spacePack, [], ["keydown.wav"]⟩ "space" ⟨"C:\\tmp\\boom.flac", 1000⟩ =
      (⟨spacePack, [], ["keydown.wav"]⟩, some .validationError) ∧
    importSlot ⟨spacePack, [], ["keydown.wav"]⟩ "space" ⟨"big.wav", 6 * 1024 * 1024⟩ =
      (⟨spacePack, [], ["keydown.wav"]⟩, some .validationError) :=
  ⟨import_slot_rejects_invalid _ _ _ (by decide),
   import_slot_rejects_invalid _ _ _ (by decide)⟩

/-- C8: a name consisting only of whitespace (the empty string included) makes
`createPack` fail with a ValidationError handed back to the caller, with the registry
unchanged — no pack record is created. -/
theorem create_blank_name_rejected (reg : List Pack) (name : String)
    (h : isBlank name = true) :
    createPack reg name = (reg, .error .validationError) := by
  unfold createPack
  rw [if_pos h]

/-- Witness for C8: the empty name and a three-space name are both rejected on the
mock's default registry, which stays as it was. -/
theorem create_blank_name_rejected_witness :
    createPack DEFAULT_PACKS "" = (DEFAULT_PACKS, .error .validationError) ∧
    createPack DEFAULT_PACKS "   " = (DEFAULT_PACKS, .error .validationError) :=
  ⟨create_blank_name_rejected _ _ (by decide), create_blank_name_rejected _ _ (by decide)⟩

/-- C5: on a registry with no pack id derived from slug `test`, creating `"Test"` twice
yields ids `"test"` and then `"test-2"` (slugified name plus numeric suffix on
collision), and the registry's pack ids stay unique. -/
theorem create_twice_unique_ids (reg : List Pack)
    (h1 : "test" ∉ reg.map Pack.id) (h2 : "test-2" ∉ reg.map Pack.id)
    (hnodup : (reg.map Pack.id).Nodup) :
    ∃ p1 reg1 p2 reg2,
      createPack reg "Test" = (reg1, .ok p1) ∧ p1.id = "test" ∧
      createPack reg1 "Test" = (reg2, .ok p2) ∧ p2.id = "test-2" ∧
      (reg2.map Pack.id).Nodup := by
  have hslug : slugify "Test" = "test" := by decide
  have hblank : isBlank "Test" = false := by decide
  have hc0 : suffixCandidate "test" 0 = "test" := by decide
  have hc1 : suffixCandidate "test" 1 = "test-2" := by decide
  have hfree1 : freeId (reg.map Pack.id) "test" = some "test" := by
    simp only [freeId, freeIdFrom, hc0]
    simp [h1]
  set p1 : Pack :=
    { id := "test", name := "Test", author := "You", description := "",
      source := some "user" } with hp1
  set p2 : Pack :=
    { id := "test-2", name := "Test", author := "You", description := "",
      source := some "user" } with hp2
  have e1 : createPack reg "Test" = (reg ++ [p1], .ok p1) := by
    simp [createPack, hblank, hslug, hfree1, hp1]
  have hmap : (reg ++ [p1]).map Pack.id = reg.map Pack.id ++ ["test"] := by simp [hp1]
  have hfree2 : freeId ((reg ++ [p1]).map Pack.id) "test" = some "test-2" := by
    rw [hmap]
    simp only [freeId, List.length_append, List.length_cons, List.length_nil]
    simp only [freeIdFrom, hc0, hc1]
    simp [h1, h2]
  rw [hmap] at hfree2
  have e2 : createPack (reg ++ [p1]) "Test" = (reg ++ [p1] ++ [p2], .ok p2) := by
    simp [createPack, hblank, hslug, hfree2, hp2]
  refine ⟨p1, _, p2, _, e1, rfl, e2, rfl, ?_⟩
  have hmap2 : (reg ++ [p1] ++ [p2]).map Pack.id =
      reg.map Pack.id ++ ["test"] ++ ["test-2"] := by simp [hp1, hp2]
  rw [hmap2]
  simp [List.nodup_append, List.Disjoint, hnodup]
  exact fun a ha =>
    ⟨fun he => h1 (List.mem_map.mpr ⟨a, ha, he⟩), fun he => h2 (List.mem_map.mpr ⟨a, ha, he⟩)⟩

/-- Witness for C5: on the mock's default registry (no `test`-slugged id) the two
creates produce `test` and `test-2` and ids stay unique. -/
theorem create_twice_unique_ids_witness :
    ∃ p1 reg1 p2 reg2,
      createPack DEFAULT_PACKS "Test" = (reg1, .ok p1) ∧ p1.id = "test" ∧
      createPack reg1 "Test" = (reg2, .ok p2) ∧ p2.id = "test-2" ∧
      (reg2.map Pack.id).Nodup :=
  create_twice_unique_ids DEFAULT_PACKS (by decide) (by decide) (by decide)

/-- Helper: a relation that holds between all members of a list holds pairwise. -/
theorem pairwise_of_all {α : Type} {R : α → α → Prop} :
    ∀ {l : List α}, (∀ a ∈ l, ∀ b ∈ l, R a b) → l.Pairwise R
  | [], _ => List.Pairwise.nil
  | a :: l, h =>
    List.Pairwise.cons (fun b hb => h a (by simp) b (by simp [hb]))
      (pairwise_of_all (fun x hx y hy => h x (by simp [hx]) y (by simp [hy])))

/-- Helper: members of `defaultPart` sort into group 0. -/
theorem packGroup_of_mem_defaultPart {l : List Pack} {a : Pack} (h : a ∈ defaultPart l) :
    packGroup a = 0 := by
  simp [defaultPart, List.mem_filter] at h
  simp [packGroup, h.2]

/-- Helper: members of `userPart` sort into group 1. -/
theorem packGroup_of_mem_userPart {l : List Pack} {a : Pack} (h : a ∈ userPart l) :
    packGroup a = 1 := by
  simp [userPart, restPart, List.mem_filter, and_assoc] at h
  obtain ⟨-, h1, h2⟩ := h
  simp [packGroup, h1, h2]

/-- Helper: members of `bundledPart` sort into group 2. -/
theorem packGroup_of_mem_bundledPart {l : List Pack} {a : Pack} (h : a ∈ bundledPart l) :
    packGroup a = 2 := by
  simp [bundledPart, restPart, List.mem_filter, and_assoc] at h
  obtain ⟨-, h1, h2⟩ := h
  simp [packGroup, h1, h2]

/-- C6: the registry's pack list is a permutation of the loaded packs arranged so that
the default pack comes first, then the user packs alphabetical by name, then the
remaining bundled packs alphabetical by name — and the list stays so ordered after any
`createPack` (the registry reorders on reload). -/
theorem registry_order (l : List Pack) :
    List.Pairwise packOrdered (orderPacks l) ∧ (orderPacks l).Perm l ∧
    (∀ name, List.Pairwise packOrdered (orderPacks ((createPack l name).1))) := by
  have main : ∀ m : List Pack, List.Pairwise packOrdered (orderPacks m) := by
    intro m
    have hu : ∀ a ∈ List.insertionSort nameLe (userPart m), packGroup a = 1 :=
      fun a ha => packGroup_of_mem_userPart (by simpa using ha)
    have hb : ∀ a ∈ List.insertionSort nameLe (bundledPart m), packGroup a = 2 :=
      fun a ha => packGroup_of_mem_bundledPart (by simpa using ha)
    rw [orderPacks, List.append_assoc, List.pairwise_append]
    refine ⟨?_, ?_, ?_⟩
    · exact pairwise_of_all fun a ha b hbm =>
        Or.inr ⟨by rw [packGroup_of_mem_defaultPart ha, packGroup_of_mem_defaultPart hbm],
          Or.inl (packGroup_of_mem_defaultPart ha)⟩
    · rw [List.pairwise_append]
      refine ⟨?_, ?_, fun a ha b hbm => Or.inl (by rw [hu a ha, hb b hbm]; norm_num)⟩
      · exact (List.sorted_insertionSort nameLe (userPart m)).imp_of_mem
          (fun ha hbm hr => Or.inr ⟨by rw [hu _ ha, hu _ hbm], Or.inr hr⟩)
      · exact (List.sorted_insertionSort nameLe (bundledPart m)).imp_of_mem
          (fun ha hbm hr => Or.inr ⟨by rw [hb _ ha, hb _ hbm], Or.inr hr⟩)
    · intro a ha b hbm
      rcases List.mem_append.mp hbm with hm | hm
      · exact Or.inl (by rw [packGroup_of_mem_defaultPart ha, hu b hm]; norm_num)
      · exact Or.inl (by rw [packGroup_of_mem_defaultPart ha, hb b hm]; norm_num)
  refine ⟨main l, ?_, fun name => main _⟩
  have pu : (List.insertionSort nameLe (userPart l)).Perm (userPart l) :=
    List.perm_insertionSort _ _
  have pb : (List.insertionSort nameLe (bundledPart l)).Perm (bundledPart l) :=
    List.perm_insertionSort _ _
  have pub : (userPart l ++ bundledPart l).Perm (restPart l) := List.filter_append_perm _ _
  have pd : (defaultPart l ++ restPart l).Perm l := List.filter_append_perm _ _
  have e : orderPacks l = defaultPart l ++ (List.insertionSort nameLe (userPart l)
      ++ List.insertionSort nameLe (bundledPart l)) := by
    rw [orderPacks, List.append_assoc]
  rw [e]
  exact (List.Perm.append_left _ ((pu.append pb).trans pub)).trans pd

/-- Helper: the converted 16-bit value of any sample lies in `[-32768, 32767]`, because
the sample is clamped to `[-1, 1]` before scaling and rounding. -/
theorem sampleToInt16_bounds (s : ℚ) : -32768 ≤ sampleToInt16 s ∧ sampleToInt16 s ≤ 32767 := by
  have h1 : (-1 : ℚ) ≤ clampSample s := le_max_left _ _
  have h2 : clampSample s ≤ 1 := max_le (by norm_num) (min_le_left _ _)
  unfold sampleToInt16 jsRound
  split
  case isTrue h =>
    constructor
    · rw [Int.le_floor]
      push_cast
      nlinarith
    · have hf : ⌊clampSample s * 32768 + 1/2⌋ < 32768 := by
        rw [Int.floor_lt]
        push_cast
        nlinarith
      omega
  case isFalse h =>
    push_neg at h
    constructor
    · rw [Int.le_floor]
      push_cast
      nlinarith
    · have hf : ⌊clampSample s * 32767 + 1/2⌋ < 32768 := by
        rw [Int.floor_lt]
        push_cast
        nlinarith
      omega

/-- Helper: converting a whole sample list succeeds (no `writeInt16LE` range error) and
produces two bytes per sample. -/
theorem mapM_samples (l : List ℚ) :
    ∃ bs : List (List ℕ), l.mapM (fun s => writeInt16LE (sampleToInt16 s)) = some bs ∧
      bs.flatten.length = 2 * l.length := by
  induction l with
  | nil => exact ⟨[], rfl, rfl⟩
  | cons a l ih =>
    obtain ⟨bs, hbs, hlen⟩ := ih
    obtain ⟨hlo, hhi⟩ := sampleToInt16_bounds a
    refine ⟨u16bytes ((sampleToInt16 a) % 65536).toNat :: bs, ?_, ?_⟩
    · rw [List.mapM_cons, hbs]
      simp [writeInt16LE, hlo, hhi]
    · simp [u16bytes, hlen]
      omega

/-- Helper: reading the 32-bit field right after a prefix of length `off` recovers the
value stored there. -/
theorem readU32_at (l1 l2 : List ℕ) (v off : ℕ) (hoff : l1.length = off) (hv : v < 2 ^ 32) :
    readU32 (l1 ++ (u32bytes v ++ l2)) off = v := by
  subst hoff
  unfold readU32
  rw [List.drop_left, List.take_left' (by simp [u32bytes] : (u32bytes v).length = 4)]
  simp [bytesToNatLE, u32bytes]
  omega

/-- C10: for any sample list of length `n` (with the RIFF size representable in 32
bits, as `Buffer.writeUInt32LE` requires), `encodeWav` yields a buffer of exactly
`44 + 2n` bytes whose RIFF size field at offset 4 reads `36 + 2n` and whose data-size
field at offset 40 reads `2n`; every written 16-bit value lies in `[-32768, 32767]`,
so `writeInt16LE` never receives an out-of-range argument. -/
theorem encodeWav_shape (samples : List ℚ) (h : 36 + 2 * samples.length < 2 ^ 32) :
    ∃ buf, encodeWav samples 44100 = some buf ∧
      buf.length = 44 + 2 * samples.length ∧
      readU32 buf 4 = 36 + 2 * samples.length ∧
      readU32 buf 40 = 2 * samples.length ∧
      ∀ s ∈ samples, -32768 ≤ sampleToInt16 s ∧ sampleToInt16 s ≤ 32767 := by
  obtain ⟨bs, hbs, hlen⟩ := mapM_samples samples
  have h2 : 2 * samples.length < 2 ^ 32 := by omega
  have hRIFF : (asciiBytes "RIFF").length = 4 := by decide
  have hWAVE : (asciiBytes "WAVE").length = 4 := by decide
  have hFMT : (asciiBytes "fmt ").length = 4 := by decide
  have hDATA : (asciiBytes "data").length = 4 := by decide
  have e : encodeWav samples 44100 = some
      (asciiBytes "RIFF" ++ u32bytes (36 + 2 * samples.length) ++ asciiBytes "WAVE" ++
       asciiBytes "fmt " ++ u32bytes 16 ++ u16bytes 1 ++ u16bytes 1 ++ u32bytes 44100 ++
       u32bytes 88200 ++ u16bytes 2 ++ u16bytes 16 ++ asciiBytes "data" ++
       u32bytes (2 * samples.length) ++ bs.flatten) := by
    rw [encodeWav, hbs]
    have h' : 36 + 2 * samples.length < 4294967296 := by omega
    have h2' : 2 * samples.length < 4294967296 := by omega
    simp [writeUInt32LE, writeUInt16LE, h', h2']
  refine ⟨_, e, ?_, ?_, ?_, fun s _ => sampleToInt16_bounds s⟩
  · simp [hRIFF, hWAVE, hFMT, hDATA, u32bytes, u16bytes, hlen]
    omega
  · have regroup :
        asciiBytes "RIFF" ++ u32bytes (36 + 2 * samples.length) ++ asciiBytes "WAVE" ++
          asciiBytes "fmt " ++ u32bytes 16 ++ u16bytes 1 ++ u16bytes 1 ++ u32bytes 44100 ++
          u32bytes 88200 ++ u16bytes 2 ++ u16bytes 16 ++ asciiBytes "data" ++
          u32bytes (2 * samples.length) ++ bs.flatten =
        asciiBytes "RIFF" ++ (u32bytes (36 + 2 * samples.length) ++
          (asciiBytes "WAVE" ++ asciiBytes "fmt " ++ u32bytes 16 ++ u16bytes 1 ++ u16bytes 1 ++
           u32bytes 44100 ++ u32bytes 88200 ++ u16bytes 2 ++ u16bytes 16 ++ asciiBytes "data" ++
           u32bytes (2 * samples.length) ++ bs.flatten)) := by
      simp only [List.append_assoc]
    rw [regroup]
    exact readU32_at _ _ _ _ hRIFF h
  · have regroup :
        asciiBytes "RIFF" ++ u32bytes (36 + 2 * samples.length) ++ asciiBytes "WAVE" ++
          asciiBytes "fmt " ++ u32bytes 16 ++ u16bytes 1 ++ u16bytes 1 ++ u32bytes 44100 ++
          u32bytes 88200 ++ u16bytes 2 ++ u16bytes 16 ++ asciiBytes "data" ++
          u32bytes (2 * samples.length) ++ bs.flatten =
        (asciiBytes "RIFF" ++ u32bytes (36 + 2 * samples.length) ++ asciiBytes "WAVE" ++
          asciiBytes "fmt " ++ u32bytes 16 ++ u16bytes 1 ++ u16bytes 1 ++ u32bytes 44100 ++
          u32bytes 88200 ++ u16bytes 2 ++ u16bytes 16 ++ asciiBytes "data") ++
          (u32bytes (2 * samples.length) ++ bs.flatten) := by
      simp only [List.append_assoc]
    rw [regroup]
    refine readU32_at _ _ _ _ ?_ h2
    simp [hRIFF, hWAVE, hFMT, hDATA, u32bytes, u16bytes]

/-- Witness for C10: a concrete four-sample list (values beyond the clamp range
included) encodes to a 52-byte buffer with RIFF size 44 and data size 8. -/
theorem encodeWav_shape_witness :
    ∃ buf, encodeWav [1, -1, 0, 3/2] 44100 = some buf ∧
      buf.length = 44 + 2 * ([1, -1, 0, 3/2] : List ℚ).length ∧
      readU32 buf 4 = 36 + 2 * ([1, -1, 0, 3/2] : List ℚ).length ∧
      readU32 buf 40 = 2 * ([1, -1, 0, 3/2] : List ℚ).length ∧
      ∀ s ∈ ([1, -1, 0, 3/2] : List ℚ), -32768 ≤ sampleToInt16 s ∧ sampleToInt16 s ≤ 32767 :=
  encodeWav_shape [1, -1, 0, 3/2] (by decide)

end KeySound
